import Mathlib

/-!
Verification of the tool-security gateway and session lifecycle of the
`claude-code-telegram` repository (`src/claude/monitor.py`,
`src/claude/facade.py`, `src/claude/sdk_integration.py`).

Paths are modelled lexically: an absolute path is the list of its non-empty
components (so `/work/app` is `["work", "app"]`).  `Path.resolve()` on a
symlink-free tree is lexical normalisation of `.` and `..` segments, which is
what the model computes.  Machine-level concerns (symlinks, the OS sandbox)
are outside the embedding.
-/

/-- Prefix test on strings by character lists (Python `str.startswith`,
`String.startsWith` of the standard library). -/
def strStartsWith (s pre : String) : Bool :=
  pre.toList.isPrefixOf s.toList

/-- Lowercasing of a string (Python `str.lower`) by mapping the character
lowercasing function. -/
def strLower (s : String) : String :=
  String.mk (s.toList.map Char.toLower)

/-- Accumulating splitter for path components; `cur` holds the reversed
characters of the component in progress. -/
def splitPathAux : List Char → List Char → List String
  | [], cur => if cur.isEmpty then [] else [String.mk cur.reverse]
  | c :: cs, cur =>
    if c = '/' then
      if cur.isEmpty then splitPathAux cs []
      else String.mk cur.reverse :: splitPathAux cs []
    else splitPathAux cs (c :: cur)

/-- Split a path string on slashes, dropping empty components: the component
list of `pathlib` parsing (`"/work/app"` gives `["work", "app"]`). -/
def splitPath (s : String) : List String :=
  splitPathAux s.toList []

/-- Lexical normalisation of the component list of an absolute path, as
computed by `Path.resolve()` in a symlink-free tree: `"."` segments are
dropped and `".."` removes the previous component (staying at the root when
there is none). -/
def normalizeComponents (cs : List String) : List String :=
  cs.foldl
    (fun acc c =>
      if c = "." then acc
      else if c = ".." then acc.dropLast
      else acc ++ [c])
    []

/-- Resolution of an approved directory, `d.resolve()` in
`check_bash_directory_boundary` (monitor.py line 106); configured approved
directories are absolute paths. -/
def resolveAbs (s : String) : List String :=
  normalizeComponents (splitPath s)

/-- Resolution of a command token against the working directory
(monitor.py lines 116-119): a token starting with `/` is resolved as-is,
any other token is joined to the working directory first.  The working
directory is given as an already-resolved absolute component list. -/
def resolveToken (wd : List String) (t : String) : List String :=
  if strStartsWith t "/" then normalizeComponents (splitPath t)
  else normalizeComponents (wd ++ splitPath t)

/-- Containment test `_path_within` (monitor.py lines 131-137):
`path.relative_to(directory)` succeeds exactly when the component list of
`directory` is a prefix of the component list of `path`. -/
def path_within (path directory : List String) : Bool :=
  directory.isPrefixOf path

/-- Final path component, `Path(token).name`, used to obtain the base
command from the first token (monitor.py line 89). -/
def pathName (s : String) : String :=
  (splitPath s).getLastD ""

/-! ### A model of `shlex.split` (POSIX mode)

`shlex.split` raises `ValueError` on an unterminated quote or a trailing
escape character; the model returns `none` in exactly those cases. -/

/-- Lexer state of the POSIX shell lexer: outside quotes, inside single
quotes, inside double quotes, after a backslash outside quotes, and after a
backslash inside double quotes. -/
inductive LexState where
  | normal
  | single
  | double
  | esc
  | escDouble
  deriving Repr, DecidableEq

/-- Whitespace characters recognised by `shlex` (space, tab, carriage
return, newline). -/
def isShWhitespace (c : Char) : Bool :=
  c = ' ' || c = '\t' || c = '\r' || c = '\n'

/-- Core loop of the POSIX shell lexer.  `cur = none` means no token is in
progress; entering a quote or escape starts a token, so `''` produces an
empty token.  Outside quotes a backslash escapes any following character;
inside double quotes it escapes only `"` and `\`.  Running out of input
inside a quote or right after a backslash is a lexing error (`none`). -/
def shlexCore : List Char → LexState → Option String → List String →
    Option (List String)
  | [], .normal, none, acc => some acc
  | [], .normal, some t, acc => some (acc ++ [t])
  | [], .single, _, _ => none
  | [], .double, _, _ => none
  | [], .esc, _, _ => none
  | [], .escDouble, _, _ => none
  | c :: cs, .normal, cur, acc =>
    if isShWhitespace c then
      match cur with
      | none => shlexCore cs .normal none acc
      | some t => shlexCore cs .normal none (acc ++ [t])
    else if c = '\x27' then shlexCore cs .single (some (cur.getD "")) acc
    else if c = '"' then shlexCore cs .double (some (cur.getD "")) acc
    else if c = '\\' then shlexCore cs .esc (some (cur.getD "")) acc
    else shlexCore cs .normal (some ((cur.getD "").push c)) acc
  | c :: cs, .single, cur, acc =>
    if c = '\x27' then shlexCore cs .normal cur acc
    else shlexCore cs .single (some ((cur.getD "").push c)) acc
  | c :: cs, .double, cur, acc =>
    if c = '"' then shlexCore cs .normal cur acc
    else if c = '\\' then shlexCore cs .escDouble cur acc
    else shlexCore cs .double (some ((cur.getD "").push c)) acc
  | c :: cs, .esc, cur, acc =>
    shlexCore cs .normal (some ((cur.getD "").push c)) acc
  | c :: cs, .escDouble, cur, acc =>
    if c = '"' || c = '\\' then
      shlexCore cs .double (some ((cur.getD "").push c)) acc
    else
      shlexCore cs .double (some (((cur.getD "").push '\\').push c)) acc

/-- Model of `shlex.split(command)` (monitor.py line 80); `none` models the
raised `ValueError` that the caller catches. -/
def shlexSplit (s : String) : Option (List String) :=
  shlexCore s.toList .normal none []

/-! ### The bash directory-boundary check (monitor.py lines 23-137) -/

/-- Commands that modify the filesystem and should have paths checked
(`_FS_MODIFYING_COMMANDS`). -/
def fsModifyingCommands : List String :=
  ["mkdir", "touch", "cp", "mv", "rm", "rmdir", "ln", "install", "tee"]

/-- Commands that are read-only or do not take filesystem paths
(`_READ_ONLY_COMMANDS`). -/
def readOnlyCommands : List String :=
  ["cat", "ls", "head", "tail", "less", "more", "which", "whoami", "pwd",
   "echo", "printf", "env", "printenv", "date", "wc", "sort", "uniq",
   "diff", "file", "stat", "du", "df", "tree", "realpath", "dirname",
   "basename"]

/-- Actions that make `find` a filesystem-modifying command
(`_FIND_MUTATING_ACTIONS`). -/
def findMutatingActions : List String :=
  ["-delete", "-exec", "-execdir", "-ok", "-okdir"]

/-- Error message produced for a token outside all approved directories
(monitor.py lines 123-126). -/
def boundary_violation_message (base token : String) : String :=
  "Directory boundary violation: \x27" ++ base ++ "\x27 targets \x27" ++
    token ++ "\x27 which is outside approved directories"

/-- Per-token loop of `check_bash_directory_boundary` (monitor.py lines
108-128): flags are skipped, every other token is resolved against the
working directory and must land inside some approved directory. -/
def checkTokens (base : String) (wd : List String)
    (approved : List (List String)) : List String → Bool × Option String
  | [] => (true, none)
  | t :: ts =>
    if strStartsWith t "-" then checkTokens base wd approved ts
    else if approved.any (fun a => path_within (resolveToken wd t) a) then
      checkTokens base wd approved ts
    else (false, some (boundary_violation_message base t))

/-- Model of `check_bash_directory_boundary` (monitor.py lines 69-128).
Unparsable commands and empty commands pass; read-only base commands pass;
`find` is only checked when a mutating action flag is present; any other
base command outside `_FS_MODIFYING_COMMANDS` passes; otherwise every
non-flag token is boundary-checked. -/
def check_bash_directory_boundary (command : String)
    (working_directory : List String) (approved_directories : List String) :
    Bool × Option String :=
  match shlexSplit command with
  | none => (true, none)
  | some [] => (true, none)
  | some (t0 :: rest) =>
    let base_command := pathName t0
    if readOnlyCommands.contains base_command then (true, none)
    else if base_command = "find" then
      if !(rest.any (fun t => findMutatingActions.contains t)) then
        (true, none)
      else
        checkTokens base_command working_directory
          (approved_directories.map resolveAbs) rest
    else if !(fsModifyingCommands.contains base_command) then (true, none)
    else
      checkTokens base_command working_directory
        (approved_directories.map resolveAbs) rest

/-! ### ToolMonitor (monitor.py lines 140-306) -/

/-- Tool-call input payload: the keys of the `tool_input` dict that
`validate_tool_call` reads (`path`, `file_path`, `command`); `none` models
an absent key. -/
structure ToolInput where
  path : Option String := none
  file_path : Option String := none
  command : Option String := none
  deriving Repr, DecidableEq

/-- Truthiness of `a or b` over optional strings: Python treats both a
missing key and an empty string as falsy. -/
def pyOrStr (a b : Option String) : Option String :=
  match a with
  | some s => if s = "" then b else some s
  | none => b

/-- Python truthiness of an optional string. -/
def strTruthy : Option String → Bool
  | some s => s ≠ ""
  | none => false

/-- Containment of one character list in another at any position. -/
def listInfix (needle : List Char) : List Char → Bool
  | [] => needle.isEmpty
  | c :: cs => needle.isPrefixOf (c :: cs) || listInfix needle cs

/-- Substring test, Python `needle in hay`. -/
def strContains (hay needle : String) : Bool :=
  listInfix needle.toList hay.toList

/-- Record appended to `self.security_violations` on a blocked call.  The
source appends a dict whose keys vary with the violation type; the common
keys are modelled and the variable ones are folded into `detail`. -/
structure Violation where
  vtype : String
  tool_name : String
  user_id : Int
  working_directory : List String
  detail : Option String := none
  deriving Repr, DecidableEq

/-- Result of `SecurityValidator.validate_path`: the `(valid,
resolved_path, error)` triple.  The `SecurityValidator` class itself lives
in `src/security/validators.py`, which is not part of the analysed source;
the monitor only consumes this triple. -/
structure PathValidation where
  valid : Bool
  resolved : Option String := none
  error : Option String := none

/-- Interface of a path security validator as consumed by the monitor: a
function from the raw path and the working directory to a validation
triple. -/
def SecurityValidator : Type :=
  String → List String → PathValidation

/-- Fields of `Settings` read by the monitor.  In the source
`claude_allowed_tools` and `claude_disallowed_tools` are `list | None` and
both `None` and `[]` are falsy, so one empty-list representation covers
both; `all_allowed_paths` is the merged list of the approved directory and
extra allowed paths (settings.py line 424). -/
structure Settings where
  claude_allowed_tools : List String := []
  claude_disallowed_tools : List String := []
  all_allowed_paths : List String := []
  disable_tool_validation : Bool := false
  session_timeout_hours : Int := 24

/-- State of `ToolMonitor` (monitor.py lines 143-155). -/
structure ToolMonitor where
  config : Settings
  security_validator : Option SecurityValidator := none
  agentic_mode : Bool := false
  tool_usage : List (String × Nat) := []
  security_violations : List Violation := []
  disable_tool_validation : Bool := false

/-- Constructor of `ToolMonitor`: `disable_tool_validation` is copied from
the config (monitor.py line 155). -/
def ToolMonitor.init (config : Settings) (sv : Option SecurityValidator)
    (agentic : Bool) : ToolMonitor :=
  { config := config
    security_validator := sv
    agentic_mode := agentic
    tool_usage := []
    security_violations := []
    disable_tool_validation := config.disable_tool_validation }

/-- Usage counter bump, `self.tool_usage[tool_name] += 1` on a defaultdict
(monitor.py line 303). -/
def bumpUsage (u : List (String × Nat)) (name : String) :
    List (String × Nat) :=
  if u.any (fun p => p.1 == name) then
    u.map (fun p => if p.1 == name then (p.1, p.2 + 1) else p)
  else u ++ [(name, 1)]

/-- File-oriented tool names checked by the file stage (monitor.py lines
216-223). -/
def fileTools : List String :=
  ["create_file", "edit_file", "read_file", "Write", "Edit", "Read"]

/-- Shell-execution tool names (monitor.py line 247). -/
def shellTools : List String :=
  ["bash", "shell", "Bash"]

/-- Dangerous command substrings (monitor.py lines 251-266), matched
against the lowercased command. -/
def dangerousPatterns : List String :=
  ["rm -rf", "sudo", "chmod 777", "curl", "wget", "nc ", "netcat",
   ">", ">>", "|", "&", ";", "$(", "\x60"]

/-- First dangerous pattern contained in the lowercased command, the loop
of monitor.py lines 268-280. -/
def firstDangerous (command : String) : Option String :=
  dangerousPatterns.find? (fun p => strContains (strLower command) p)

/-- Blocked return: append a violation record and return `(False, error)`
(the shape of every blocked branch of `validate_tool_call`). -/
def blockWith (m : ToolMonitor) (vtype tool_name : String) (user_id : Int)
    (working_directory : List String) (detail : Option String)
    (error : Option String) : ToolMonitor × Bool × Option String :=
  ({ m with security_violations :=
      m.security_violations ++
        [{ vtype := vtype, tool_name := tool_name, user_id := user_id,
           working_directory := working_directory, detail := detail }] },
   false, error)

/-- File-path stage of `validate_tool_call` (monitor.py lines 215-243):
for file-oriented tools a non-empty path is required, and when a security
validator is configured the path must pass it; `some` is an early return,
`none` falls through to the next stage. -/
def file_stage (m : ToolMonitor) (tool_name : String)
    (tool_input : ToolInput) (working_directory : List String)
    (user_id : Int) : Option (ToolMonitor × Bool × Option String) :=
  if fileTools.contains tool_name then
    let file_path := pyOrStr tool_input.path tool_input.file_path
    if !strTruthy file_path then some (m, false, some "File path required")
    else
      match m.security_validator with
      | some sv =>
        let r := sv (file_path.getD "") working_directory
        if !r.valid then
          some (blockWith m "invalid_file_path" tool_name user_id
            working_directory file_path r.error)
        else none
      | none => none
  else none

/-- Allowed early return of `validate_tool_call` (monitor.py lines
302-306): bump the usage counter. -/
def finishOk (m : ToolMonitor) (tool_name : String) :
    ToolMonitor × Bool × Option String :=
  ({ m with tool_usage := bumpUsage m.tool_usage tool_name }, true, none)

/-- Shell stage of `validate_tool_call` (monitor.py lines 245-300): unless
agentic mode, shell tools are scanned for dangerous patterns on the raw
command and then boundary-checked. -/
def shell_stage (m : ToolMonitor) (tool_name : String)
    (tool_input : ToolInput) (working_directory : List String)
    (user_id : Int) : ToolMonitor × Bool × Option String :=
  if shellTools.contains tool_name && !m.agentic_mode then
    let command := tool_input.command.getD ""
    match firstDangerous command with
    | some pattern =>
      blockWith m "dangerous_command" tool_name user_id
        working_directory (some command)
        (some ("Dangerous command pattern detected: " ++ pattern))
    | none =>
      let allowed_dirs := m.config.all_allowed_paths
      let r := check_bash_directory_boundary command working_directory
        allowed_dirs
      if !r.1 then
        blockWith m "directory_boundary_violation" tool_name user_id
          working_directory (some command) r.2
      else finishOk m tool_name
  else finishOk m tool_name

/-- Model of `ToolMonitor.validate_tool_call` (monitor.py lines 157-306).
The stages in source order: allow-list name check, disallow-list name
check, file-path stage for file-oriented tools, shell stage (dangerous
patterns then directory boundary) for shell tools unless agentic mode, and
finally the usage-counter bump with an `Allowed` result. -/
def ToolMonitor.validate_tool_call (m : ToolMonitor) (tool_name : String)
    (tool_input : ToolInput) (working_directory : List String)
    (user_id : Int) : ToolMonitor × Bool × Option String :=
  if !m.disable_tool_validation && !m.config.claude_allowed_tools.isEmpty
      && !m.config.claude_allowed_tools.contains tool_name then
    blockWith m "disallowed_tool" tool_name user_id working_directory none
      (some ("Tool not allowed: " ++ tool_name))
  else if !m.disable_tool_validation
      && !m.config.claude_disallowed_tools.isEmpty
      && m.config.claude_disallowed_tools.contains tool_name then
    blockWith m "explicitly_disallowed_tool" tool_name user_id
      working_directory none
      (some ("Tool explicitly disallowed: " ++ tool_name))
  else
    match file_stage m tool_name tool_input working_directory user_id with
    | some r => r
    | none => shell_stage m tool_name tool_input working_directory user_id

/-! ### Sessions (facade.py; the `ClaudeSession` / `SessionManager` classes
live in `src/claude/session.py`, which is absent from the analysed source
tree, so their operations are modelled from the spec where noted) -/

/-- Session record, the fields of `ClaudeSession` that the facade reads.
Timestamps are abstract integer instants. -/
structure ClaudeSession where
  session_id : String
  user_id : Int
  project_path : List String
  last_used : Int
  message_count : Nat := 0
  is_new_session : Bool := false
  deriving Repr, DecidableEq

/-- Modelled from the spec: `ClaudeSession.is_expired` is defined in the
missing `src/claude/session.py`.  Spec section 3: "A session is *expired*
iff `now - last_used > timeout`". -/
def ClaudeSession.is_expired (s : ClaudeSession) (now timeout : Int) : Bool :=
  now - s.last_used > timeout

/-- Modelled from the spec: `SessionManager._get_user_sessions` (missing
`src/claude/session.py`) lists the stored sessions owned by a user. -/
def get_user_sessions (store : List ClaudeSession) (user_id : Int) :
    List ClaudeSession :=
  store.filter (fun s => s.user_id == user_id)

/-- Modelled from the spec: `SessionManager.remove_session` (missing
`src/claude/session.py`) hard-deletes the record with the given id. -/
def remove_session (store : List ClaudeSession) (sid : String) :
    List ClaudeSession :=
  store.filter (fun s => s.session_id != sid)

/-- Modelled from the spec: `SessionManager.update_session` (missing
`src/claude/session.py`).  Spec section 4.4: increments `message_count`
and sets `last_used = now` on the matching record (cost/tool accumulation
is not observed by any claim and is omitted). -/
def update_session (store : List ClaudeSession) (sid : String) (now : Int) :
    List ClaudeSession :=
  store.map (fun s =>
    if s.session_id == sid then
      { s with message_count := s.message_count + 1, last_used := now }
    else s)

/-- Fresh placeholder session synthesized by `get_or_create_session`. -/
def freshSession (user_id : Int) (wd : List String) (freshId : String)
    (now : Int) : ClaudeSession :=
  { session_id := freshId, user_id := user_id, project_path := wd,
    last_used := now, is_new_session := true }

/-- Modelled from the spec: `SessionManager.get_or_create_session` (missing
`src/claude/session.py`).  Spec section 4.4: a real (non-placeholder)
explicit id is loaded, with a lightweight shell record fabricated when the
store has no match; otherwise a fresh placeholder session with
`is_new_session = true` is synthesized.  Placeholder ids carry the `temp_`
prefix (facade.py lines 74, 162); `freshId` supplies the generated
placeholder id and an absent or empty explicit id counts as not given. -/
def get_or_create_session (store : List ClaudeSession) (user_id : Int)
    (wd : List String) (explicit : Option String) (freshId : String)
    (now : Int) : ClaudeSession × List ClaudeSession :=
  match explicit with
  | some sid =>
    if sid ≠ "" && !(strStartsWith sid "temp_") then
      match store.find? (fun s => s.session_id == sid && s.user_id == user_id) with
      | some s => (s, store)
      | none =>
        let s : ClaudeSession :=
          { session_id := sid, user_id := user_id, project_path := wd,
            last_used := now, is_new_session := false }
        (s, store ++ [s])
    else
      (freshSession user_id wd freshId now,
        store ++ [freshSession user_id wd freshId now])
  | none =>
    (freshSession user_id wd freshId now,
      store ++ [freshSession user_id wd freshId now])

/-- Resumable candidates: the filter of `_find_resumable_session`
(facade.py lines 405-411) applied to the sessions of the user — same
project path, not a `temp_` placeholder, not expired. -/
def resumableCandidates (store : List ClaudeSession) (user_id : Int)
    (wd : List String) (now timeout : Int) : List ClaudeSession :=
  (get_user_sessions store user_id).filter (fun s =>
    s.project_path == wd && !(strStartsWith s.session_id "temp_")
      && !s.is_expired now timeout)

/-- Python `max(xs, key=...)` over a non-empty list: the first element
attaining the maximal key (later elements replace only on a strictly
greater key). -/
def pyMaxByLastUsed (s0 : ClaudeSession) (rest : List ClaudeSession) :
    ClaudeSession :=
  rest.foldl (fun best s => if s.last_used > best.last_used then s else best) s0

/-- Model of `ClaudeIntegration._find_resumable_session` (facade.py lines
391-416). -/
def find_resumable_session (store : List ClaudeSession) (user_id : Int)
    (wd : List String) (now timeout : Int) : Option ClaudeSession :=
  match resumableCandidates store user_id wd now timeout with
  | [] => none
  | s0 :: rest => some (pyMaxByLastUsed s0 rest)

/-! ### Stream validation inside run_command (facade.py lines 93-148) -/

/-- Response object (`ClaudeResponse`, sdk_integration.py lines 104-116);
only the fields the claims observe are carried (the numeric telemetry
fields cost/duration/turn count play no role in any claim). -/
structure ClaudeResponse where
  content : String
  session_id : String
  is_error : Bool := false
  error_type : Option String := none
  deriving Repr, DecidableEq

/-- Tool call carried by a stream update. -/
structure ToolCall where
  name : String
  input : ToolInput
  deriving Repr, DecidableEq

/-- Stream update delivered to the facade stream handler; only the
`tool_calls` field is read by it. -/
structure StreamUpdate where
  tool_calls : List ToolCall := []
  deriving Repr, DecidableEq

/-- Caller-supplied `on_stream` callback; an `Except` failure models a
raised exception. -/
def CallbackFun : Type :=
  StreamUpdate → Except String Unit

/-- Typed fault of facade.py lines 137-141 (`ClaudeToolValidationError`,
exceptions.py lines 33-39). -/
structure ClaudeToolValidationError where
  message : String
  blocked_tools : List String
  allowed_tools : List String
  deriving Repr, DecidableEq

/-- Critical tools that make the stream handler fail fast
(facade.py line 128). -/
def criticalTools : List String :=
  ["Task", "Read", "Write", "Edit", "Bash"]

/-- Nonlocal state of the stream handler closure (facade.py lines 94-96):
`tools_validated`, `validation_errors` and the `blocked_tools` set.  The
set is modelled as a duplicate-free list in insertion order. -/
structure StreamState where
  tools_validated : Bool := true
  validation_errors : List (Option String) := []
  blocked_tools : List String := []
  deriving Repr, DecidableEq

/-- Set insertion for the `blocked_tools` set. -/
def insertUniq (l : List String) (x : String) : List String :=
  if l.contains x then l else l ++ [x]

/-- Condensed text of the fault message built by
`_create_tool_error_message` (facade.py lines 576-608); its markdown prose
carries no information beyond the two lists and is abbreviated, and the
`.env`-dependent admin instructions (lines 517-574) are filesystem
dependent and elided.  No claim observes the message text. -/
def create_tool_error_message (blocked allowed : List String) : String :=
  "Tool Access Blocked: " ++ String.intercalate ", " blocked ++
    "; currently allowed: " ++ String.intercalate ", " allowed

/-- Result of running the stream handler on one update: the updated
monitor and closure state, plus the fault when the handler raised (which
aborts the remaining tool calls of that update). -/
structure HandlerResult where
  monitor : ToolMonitor
  state : StreamState
  fault : Option ClaudeToolValidationError := none

/-- Tool-call loop of `stream_handler` (facade.py lines 102-141): validate
each call; on a blocked call clear `tools_validated`, record the error,
add the tool to the blocked set when the error is an allow-list rejection,
and raise the typed fault when the tool is critical. -/
def handleToolCalls (wd : List String) (user_id : Int) :
    ToolMonitor → StreamState → List ToolCall → HandlerResult
  | m, st, [] => { monitor := m, state := st }
  | m, st, tc :: rest =>
    let r := m.validate_tool_call tc.name tc.input wd user_id
    if r.2.1 then handleToolCalls wd user_id r.1 st rest
    else
      let err := r.2.2
      let isAllowlistError :=
        match err with
        | some e => strContains e "Tool not allowed:"
        | none => false
      let st1 : StreamState :=
        { tools_validated := false
          validation_errors := st.validation_errors ++ [err]
          blocked_tools :=
            if isAllowlistError then insertUniq st.blocked_tools tc.name
            else st.blocked_tools }
      if criticalTools.contains tc.name then
        { monitor := r.1, state := st1,
          fault := some
            { message := create_tool_error_message st1.blocked_tools
                r.1.config.claude_allowed_tools
              blocked_tools := st1.blocked_tools
              allowed_tools := r.1.config.claude_allowed_tools } }
      else handleToolCalls wd user_id r.1 st1 rest

/-- Model of the facade `stream_handler` for one update (facade.py lines
98-148): run the tool-call loop, then pass the update to the caller
callback, whose own failure is caught and logged (lines 144-148) — its
result is discarded.  A fault skips the callback. -/
def stream_handler (wd : List String) (user_id : Int)
    (on_stream : Option CallbackFun) (m : ToolMonitor) (st : StreamState)
    (update : StreamUpdate) : HandlerResult :=
  let r := handleToolCalls wd user_id m st update.tool_calls
  match r.fault with
  | some _ => r
  | none =>
    match on_stream with
    | some cb =>
      match cb update with
      | .ok _ => r
      | .error _ => r
    | none => r

/-- SDK-side dispatch of the stream to the callback:
`_handle_stream_message` wraps every callback invocation in a blanket
`except Exception` that only logs (sdk_integration.py lines 341-348 and
369-414), so a fault raised by the facade stream handler is swallowed and
streaming continues with the next update. -/
def sdkStream (wd : List String) (user_id : Int)
    (on_stream : Option CallbackFun) :
    ToolMonitor → StreamState → List StreamUpdate → ToolMonitor × StreamState
  | m, st, [] => (m, st)
  | m, st, u :: us =>
    let r := stream_handler wd user_id on_stream m st u
    sdkStream wd user_id on_stream r.monitor r.state us

/-! ### Execution and retry (facade.py lines 52-282) -/

/-- Behaviour of one call into the execution collaborator
(`ClaudeSDKManager.execute_command`): the stream updates it delivers to
the callback, then either a returned response or a raised fault with the
given message. -/
structure EngineBehavior where
  updates : List StreamUpdate := []
  outcome : Except String ClaudeResponse

/-- Arguments of one `_execute` call that the claims observe: the session
id passed to the engine and the `continue_session` flag. -/
structure ExecCall where
  session_id : Option String
  continue_session : Bool
  deriving Repr, DecidableEq

/-- One `_execute` call (facade.py lines 284-301): the stream is dispatched
through the SDK (callback faults swallowed there), then the engine outcome
is produced. -/
def exec_model (wd : List String) (user_id : Int)
    (on_stream : Option CallbackFun) (m : ToolMonitor) (st : StreamState)
    (beh : EngineBehavior) :
    (ToolMonitor × StreamState) × Except String ClaudeResponse :=
  (sdkStream wd user_id on_stream m st beh.updates, beh.outcome)

/-- Staleness test of facade.py line 179:
`"no conversation found" in str(resume_error).lower()`. -/
def isStaleError (msg : String) : Bool :=
  strContains (strLower msg) "no conversation found"

/-- Result of the execute-with-retry block. -/
structure ExecPhaseResult where
  result : Except String ClaudeResponse
  session : ClaudeSession
  store : List ClaudeSession
  monitor : ToolMonitor
  state : StreamState
  calls : List ExecCall

/-- Model of the try/except execute block of `run_command` (facade.py
lines 159-198): run `_execute` with `continue_session = should_continue`;
when it fails with a stale-session error while continuing a real session,
remove the stale session, create a fresh placeholder session and re-run
`_execute` exactly once with no session id and `continue_session = False`;
the second outcome, success or failure, is final. -/
def execute_with_retry (wd : List String) (user_id : Int)
    (on_stream : Option CallbackFun) (m : ToolMonitor) (st : StreamState)
    (store : List ClaudeSession) (session : ClaudeSession)
    (should_continue : Bool) (claude_session_id : Option String)
    (engine : Nat → EngineBehavior) (freshId : String) (now : Int) :
    ExecPhaseResult :=
  let r1 := exec_model wd user_id on_stream m st (engine 0)
  let call0 : ExecCall :=
    { session_id := claude_session_id, continue_session := should_continue }
  match r1.2 with
  | .ok resp =>
    { result := .ok resp, session := session, store := store,
      monitor := r1.1.1, state := r1.1.2, calls := [call0] }
  | .error msg =>
    if should_continue && isStaleError msg then
      let store2 := remove_session store session.session_id
      let gc := get_or_create_session store2 user_id wd none freshId now
      let r2 := exec_model wd user_id on_stream r1.1.1 r1.1.2 (engine 1)
      { result := r2.2, session := gc.1, store := gc.2,
        monitor := r2.1.1, state := r2.1.2,
        calls := [call0, { session_id := none, continue_session := false }] }
    else
      { result := .error msg, session := session, store := store,
        monitor := r1.1.1, state := r1.1.2, calls := [call0] }

/-- Characters after the first occurrence of `sep`, when there is one. -/
def afterFirst (sep : List Char) : List Char → Option (List Char)
  | [] => none
  | c :: cs =>
    if sep.isPrefixOf (c :: cs) then some ((c :: cs).drop sep.length)
    else afterFirst sep cs

/-- Characters before the first occurrence of `sep`. -/
def upToFirst (sep : List Char) : List Char → List Char
  | [] => []
  | c :: cs =>
    if sep.isPrefixOf (c :: cs) then []
    else c :: upToFirst sep cs

/-- Python `hay.split(sep)[1]` guarded by a prior containment test: the
segment strictly between the first occurrence of `sep` and the following
occurrence (or the end), and `""` when `sep` does not occur. -/
def pySplitGet1 (sep hay : String) : String :=
  match afterFirst sep.toList hay.toList with
  | some rest => String.mk (upToFirst sep.toList rest)
  | none => ""

/-- Names extracted from the soft-failure error list (facade.py lines
211-215): the suffix after `"Tool not allowed: "` of each allow-list
rejection.  A `None` entry is modelled as no match (in the source it would
fault on the `in` test; no claim reaches that corner). -/
def extractBlockedTools (errors : List (Option String)) : List String :=
  errors.foldl
    (fun acc e =>
      match e with
      | some err =>
        if strContains err "Tool not allowed:" then
          acc ++ [pySplitGet1 "Tool not allowed: " err]
        else acc
      | none => acc)
    []

/-- Condensed soft-failure content (facade.py lines 218-236); the markdown
prose carries no information beyond the lists and is abbreviated.  No
claim observes the content text. -/
def soft_failure_content (blocked allowed : List String)
    (errors : List (Option String)) : String :=
  if !blocked.isEmpty then
    "Tool Access Blocked: " ++ String.intercalate ", " blocked ++
      "; currently allowed: " ++ String.intercalate ", " allowed
  else
    "Tool Validation Failed: " ++
      String.intercalate "; " (errors.map (fun e => e.getD ""))

/-- Soft-failure folding (facade.py lines 200-236): when some tool failed
validation without aborting the turn, the response is marked with
`is_error = True` and `error_type = "tool_validation_failed"` and its
content is replaced. -/
def apply_soft_failure (st : StreamState) (allowed : List String)
    (resp : ClaudeResponse) : ClaudeResponse :=
  if !st.tools_validated then
    { resp with
      is_error := true
      error_type := some "tool_validation_failed"
      content := soft_failure_content (extractBlockedTools st.validation_errors)
        allowed st.validation_errors }
  else resp

/-- Final session id of the response (facade.py lines 238-256): a new
session adopts the id the engine returned when there is one, otherwise the
pre-existing id is kept; a `temp_` placeholder or empty final id is
replaced by the empty string. -/
def finalize_session_id (is_new_session : Bool) (old_sid resp_sid : String) :
    String :=
  let final := if is_new_session && resp_sid ≠ "" then resp_sid else old_sid
  if final ≠ "" && !(strStartsWith final "temp_") then final else ""

/-- Result of one `run_command` call: the returned response or the
propagated fault message, plus the session store, monitor and the trace of
engine calls. -/
structure RunResult where
  result : Except String ClaudeResponse
  store : List ClaudeSession
  monitor : ToolMonitor
  calls : List ExecCall

/-- Finalisation of a successful execute phase (facade.py lines 200-273):
fold soft validation failures into the response, call `update_session`
once, then rewrite the session id of the response. -/
def finalize_phase (p : ExecPhaseResult) (now : Int) : RunResult :=
  match p.result with
  | .error msg =>
    { result := .error msg, store := p.store, monitor := p.monitor,
      calls := p.calls }
  | .ok resp =>
    let resp1 := apply_soft_failure p.state
      p.monitor.config.claude_allowed_tools resp
    let old_sid := p.session.session_id
    let store1 := update_session p.store old_sid now
    let final_sid := finalize_session_id p.session.is_new_session old_sid
      resp1.session_id
    { result := .ok { resp1 with session_id := final_sid }
      store := store1, monitor := p.monitor, calls := p.calls }

/-- Model of `ClaudeIntegration.run_command` (facade.py lines 52-282):
auto-resume resolution, session get-or-create, execute with single stale
retry, then finalisation.  `freshIds` supplies the generated placeholder
ids (index 0 for the initial get-or-create, index 1 for the retry) and
`engine` the behaviour of each successive `_execute` call. -/
def run_command (m : ToolMonitor) (store : List ClaudeSession)
    (user_id : Int) (wd : List String) (session_id : Option String)
    (force_new : Bool) (on_stream : Option CallbackFun)
    (engine : Nat → EngineBehavior) (freshIds : Nat → String)
    (now timeout : Int) : RunResult :=
  let sid1 :=
    if !strTruthy session_id || strStartsWith (session_id.getD "") "temp_" then
      if !force_new then
        match find_resumable_session store user_id wd now timeout with
        | some existing => some existing.session_id
        | none => session_id
      else session_id
    else session_id
  let gc := get_or_create_session store user_id wd sid1 (freshIds 0) now
  let session := gc.1
  let is_new := session.is_new_session
  let has_real := !is_new && !(strStartsWith session.session_id "temp_")
  let claude_session_id :=
    if has_real then some session.session_id else none
  let phase := execute_with_retry wd user_id on_stream m {} gc.2 session
    has_real claude_session_id engine (freshIds 1) now
  finalize_phase phase now

/-! ### Concrete instances used by witnesses and counterexamples -/

/-- Monitor with no allow/disallow lists, no path validator, strict mode;
the approved directory is `/work`. -/
def plainMonitor : ToolMonitor :=
  ToolMonitor.init { all_allowed_paths := ["/work"] } none false

/-- Monitor whose allow-list admits only `Read`. -/
def allowReadMonitor : ToolMonitor :=
  ToolMonitor.init
    { claude_allowed_tools := ["Read"], all_allowed_paths := ["/work"] }
    none false

/-- Monitor in agentic (relaxed) mode. -/
def agenticMonitor : ToolMonitor :=
  ToolMonitor.init { all_allowed_paths := ["/work"] } none true

/-- Stream update containing one blocked-to-be `Bash` tool call. -/
def bashUpdate : StreamUpdate :=
  { tool_calls := [{ name := "Bash", input := { command := some "ls" } }] }

/-- Engine that streams `bashUpdate` and then returns successfully. -/
def blockedBashEngine : Nat → EngineBehavior := fun _ =>
  { updates := [bashUpdate]
    outcome := .ok { content := "done", session_id := "real123" } }

/-- Engine that streams nothing and returns successfully. -/
def quietEngine : Nat → EngineBehavior := fun _ =>
  { outcome := .ok { content := "done", session_id := "real123" } }

/-- Engine that fails with a stale-session error on the first call and
succeeds on the second. -/
def staleOnceEngine : Nat → EngineBehavior := fun n =>
  if n = 0 then { outcome := .error "No conversation found with ID abc" }
  else { outcome := .ok { content := "ok", session_id := "real456" } }

/-- Placeholder id supply. -/
def tempIds : Nat → String := fun n => "temp_" ++ toString n

/-- Stored real session used by the stale-retry witness. -/
def staleSession : ClaudeSession :=
  { session_id := "real-old", user_id := 1, project_path := ["work"],
    last_used := 0 }

/-- Resumable real session with an earlier `last_used`. -/
def sessEarly : ClaudeSession :=
  { session_id := "real-a", user_id := 1, project_path := ["work"],
    last_used := 5 }

/-- Resumable real session with the latest `last_used`. -/
def sessLate : ClaudeSession :=
  { session_id := "real-b", user_id := 1, project_path := ["work"],
    last_used := 9 }

/-- Placeholder session that must never be offered for resume. -/
def sessPlaceholder : ClaudeSession :=
  { session_id := "temp_x", user_id := 1, project_path := ["work"],
    last_used := 100 }

/-- Expired session (with `now = 10`, `timeout = 24` its age is 60). -/
def sessExpired : ClaudeSession :=
  { session_id := "real-old2", user_id := 1, project_path := ["work"],
    last_used := -50 }

/-- Session of a different user. -/
def sessOtherUser : ClaudeSession :=
  { session_id := "real-c", user_id := 2, project_path := ["work"],
    last_used := 50 }

/-- Session store for the resumable-lookup witness. -/
def resumeStore : List ClaudeSession :=
  [sessEarly, sessPlaceholder, sessExpired, sessLate, sessOtherUser]

/-! ### Supporting lemmas -/

lemma checkTokens_false_iff (base : String) (wd : List String)
    (approved : List (List String)) (ts : List String) :
    (checkTokens base wd approved ts).1 = false ↔
      ∃ t ∈ ts, strStartsWith t "-" = false ∧
        approved.any (fun a => path_within (resolveToken wd t) a) = false := by
  induction ts with
  | nil => simp [checkTokens]
  | cons t ts ih =>
    rw [checkTokens]
    by_cases h1 : strStartsWith t "-"
    · rw [if_pos h1, ih]
      constructor
      · rintro ⟨u, hu, p⟩
        exact ⟨u, List.mem_cons_of_mem _ hu, p⟩
      · rintro ⟨u, hu, p⟩
        rcases List.mem_cons.mp hu with rfl | hu
        · rw [h1] at p
          exact absurd p.1 (by simp)
        · exact ⟨u, hu, p⟩
    · rw [if_neg h1]
      by_cases h2 : (approved.any fun a => path_within (resolveToken wd t) a)
      · rw [if_pos h2, ih]
        constructor
        · rintro ⟨u, hu, p⟩
          exact ⟨u, List.mem_cons_of_mem _ hu, p⟩
        · rintro ⟨u, hu, p⟩
          rcases List.mem_cons.mp hu with rfl | hu
          · rw [h2] at p
            exact absurd p.2 (by simp)
          · exact ⟨u, hu, p⟩
      · rw [if_neg h2]
        simp only [Bool.not_eq_true] at h1 h2
        exact ⟨fun _ => ⟨t, List.mem_cons_self t ts, h1, h2⟩, fun _ => rfl⟩

lemma checkTokens_false_msg (base : String) (wd : List String)
    (approved : List (List String)) (ts : List String)
    (h : (checkTokens base wd approved ts).1 = false) :
    ∃ t ∈ ts, (checkTokens base wd approved ts).2 =
      some (boundary_violation_message base t) := by
  induction ts with
  | nil => simp [checkTokens] at h
  | cons t ts ih =>
    rw [checkTokens] at h ⊢
    by_cases h1 : strStartsWith t "-"
    · rw [if_pos h1] at h ⊢
      obtain ⟨u, hu, he⟩ := ih h
      exact ⟨u, List.mem_cons_of_mem _ hu, he⟩
    · rw [if_neg h1] at h ⊢
      by_cases h2 : (approved.any fun a => path_within (resolveToken wd t) a)
      · rw [if_pos h2] at h ⊢
        obtain ⟨u, hu, he⟩ := ih h
        exact ⟨u, List.mem_cons_of_mem _ hu, he⟩
      · rw [if_neg h2] at h ⊢
        exact ⟨t, List.mem_cons_self t ts, rfl⟩

lemma fs_not_special (b : String) (h : b ∈ fsModifyingCommands) :
    readOnlyCommands.contains b = false ∧ b ≠ "find" ∧
      fsModifyingCommands.contains b = true := by
  fin_cases h <;> decide

lemma pyMaxByLastUsed_cons (s0 a : ClaudeSession) (l : List ClaudeSession) :
    pyMaxByLastUsed s0 (a :: l) =
      pyMaxByLastUsed (if a.last_used > s0.last_used then a else s0) l := rfl

lemma pyMax_spec (rest : List ClaudeSession) :
    ∀ s0, pyMaxByLastUsed s0 rest ∈ s0 :: rest ∧
      ∀ t ∈ s0 :: rest, t.last_used ≤ (pyMaxByLastUsed s0 rest).last_used := by
  induction rest with
  | nil =>
    intro s0
    exact ⟨List.mem_cons_self _ _, by simp [pyMaxByLastUsed]⟩
  | cons a l ih =>
    intro s0
    rw [pyMaxByLastUsed_cons]
    by_cases h : a.last_used > s0.last_used
    · rw [if_pos h]
      obtain ⟨hm, hb⟩ := ih a
      refine ⟨List.mem_cons_of_mem _ hm, ?_⟩
      intro t ht
      rcases List.mem_cons.mp ht with rfl | ht
      · exact le_trans (le_of_lt h) (hb a (List.mem_cons_self _ _))
      · exact hb t ht
    · rw [if_neg h]
      obtain ⟨hm, hb⟩ := ih s0
      constructor
      · rcases List.mem_cons.mp hm with he | he
        · rw [he]
          exact List.mem_cons_self _ _
        · exact List.mem_cons_of_mem _ (List.mem_cons_of_mem _ he)
      · intro t ht
        rcases List.mem_cons.mp ht with rfl | ht
        · exact hb t (List.mem_cons_self _ _)
        · rcases List.mem_cons.mp ht with rfl | ht
          · exact le_trans (not_lt.mp h) (hb s0 (List.mem_cons_self _ _))
          · exact hb t (List.mem_cons_of_mem _ ht)

/-! ### Claim theorems -/

/-- C2: for every shell command whose base command is filesystem-mutating,
the boundary check reports `Blocked` exactly when some non-flag token,
resolved against the working directory, lies outside every approved root;
when blocked, the reported reason is the boundary-violation message naming
an offending token. -/
theorem c2_boundary_blocked_iff_escape (cmd : String) (wd : List String)
    (roots : List String) (t0 : String) (rest : List String)
    (hparse : shlexSplit cmd = some (t0 :: rest))
    (hmut : pathName t0 ∈ fsModifyingCommands) :
    (((check_bash_directory_boundary cmd wd roots).1 = false) ↔
      ∃ t ∈ rest, strStartsWith t "-" = false ∧
        ∀ r ∈ roots, path_within (resolveToken wd t) (resolveAbs r) = false) ∧
    ((check_bash_directory_boundary cmd wd roots).1 = false →
      ∃ t ∈ rest, (check_bash_directory_boundary cmd wd roots).2 =
        some (boundary_violation_message (pathName t0) t)) := by
  obtain ⟨hro, hfind, hcont⟩ := fs_not_special (pathName t0) hmut
  have hred : check_bash_directory_boundary cmd wd roots =
      checkTokens (pathName t0) wd (roots.map resolveAbs) rest := by
    rw [check_bash_directory_boundary, hparse]
    simp only [hro, hfind, hcont, Bool.false_eq_true, if_false,
      Bool.not_true, ite_false, ite_self]
  rw [hred]
  constructor
  · rw [checkTokens_false_iff]
    constructor
    · rintro ⟨t, ht, hflag, hany⟩
      refine ⟨t, ht, hflag, ?_⟩
      intro r hr
      have := List.any_eq_false.mp hany (resolveAbs r)
        (List.mem_map_of_mem _ hr)
      simpa using this
    · rintro ⟨t, ht, hflag, hall⟩
      refine ⟨t, ht, hflag, ?_⟩
      rw [List.any_eq_false]
      intro a ha
      obtain ⟨r, hr, rfl⟩ := List.mem_map.mp ha
      simp [hall r hr]
  · exact checkTokens_false_msg _ _ _ _

/-- Witness for C2: the two commands of the spec scenario, approved root
`/work` and working directory `/work/app`; the traversal command is
blocked and the in-tree command is allowed. -/
theorem c2_boundary_blocked_iff_escape_witness :
    (check_bash_directory_boundary "cp notes.txt ../../etc/cron.d/x"
      ["work", "app"] ["/work"]).1 = false ∧
    (check_bash_directory_boundary "cp notes.txt ./backup/notes.bak"
      ["work", "app"] ["/work"]).1 = true := by
  constructor
  · exact (c2_boundary_blocked_iff_escape "cp notes.txt ../../etc/cron.d/x"
      ["work", "app"] ["/work"] "cp" ["notes.txt", "../../etc/cron.d/x"]
      (by decide) (by decide)).1.mpr (by decide)
  · decide

/-- C6: the resumable-session lookup considers exactly the stored sessions
of the user in the given directory that are neither placeholders nor
expired, and returns one of maximal `last_used`, or `none` when there is
no candidate. -/
theorem c6_find_resumable_spec (store : List ClaudeSession) (user_id : Int)
    (wd : List String) (now timeout : Int) :
    (find_resumable_session store user_id wd now timeout = none ↔
      resumableCandidates store user_id wd now timeout = []) ∧
    (∀ s, find_resumable_session store user_id wd now timeout = some s →
      s ∈ resumableCandidates store user_id wd now timeout ∧
        ∀ t ∈ resumableCandidates store user_id wd now timeout,
          t.last_used ≤ s.last_used) ∧
    (∀ s ∈ resumableCandidates store user_id wd now timeout,
      s.user_id = user_id ∧ s.project_path = wd ∧
        strStartsWith s.session_id "temp_" = false ∧
        s.is_expired now timeout = false) := by
  refine ⟨?_, ?_, ?_⟩
  · rw [find_resumable_session]
    cases hc : resumableCandidates store user_id wd now timeout with
    | nil => simp
    | cons s0 rest => simp
  · intro s hs
    rw [find_resumable_session] at hs
    cases hc : resumableCandidates store user_id wd now timeout with
    | nil =>
      rw [hc] at hs
      cases hs
    | cons s0 rest =>
      rw [hc] at hs
      obtain ⟨hm, hb⟩ := pyMax_spec rest s0
      cases hs
      exact ⟨hm, hb⟩
  · intro s hs
    simp only [resumableCandidates, get_user_sessions, List.mem_filter,
      Bool.and_eq_true, beq_iff_eq, Bool.not_eq_true'] at hs
    exact ⟨hs.1.2, hs.2.1.1, hs.2.1.2, hs.2.2⟩

/-- Witness for C6: in a store holding an earlier real session, a
placeholder with the newest timestamp, an expired session and a session of
another user, the lookup returns the latest non-placeholder, non-expired
session of the user. -/
theorem c6_find_resumable_spec_witness :
    find_resumable_session resumeStore 1 ["work"] 10 24 = some sessLate ∧
    sessLate ∈ resumableCandidates resumeStore 1 ["work"] 10 24 ∧
    ∀ t ∈ resumableCandidates resumeStore 1 ["work"] 10 24,
      t.last_used ≤ sessLate.last_used := by
  refine ⟨by decide, ?_, ?_⟩
  · exact ((c6_find_resumable_spec resumeStore 1 ["work"] 10 24).2.1
      sessLate (by decide)).1
  · exact ((c6_find_resumable_spec resumeStore 1 ["work"] 10 24).2.1
      sessLate (by decide)).2

lemma finalize_session_id_spec (b : Bool) (o r : String) :
    finalize_session_id b o r = "" ∨
      (finalize_session_id b o r ≠ "" ∧
        strStartsWith (finalize_session_id b o r) "temp_" = false) := by
  rw [finalize_session_id]
  split
  all_goals
    split
    · rename_i h
      right
      rw [Bool.and_eq_true] at h
      exact ⟨of_decide_eq_true h.1, by simpa using h.2⟩
    · left
      rfl

lemma finalize_phase_ok (p : ExecPhaseResult) (now : Int)
    (resp : ClaudeResponse) (h : (finalize_phase p now).result = .ok resp) :
    ∃ b o r, resp.session_id = finalize_session_id b o r := by
  rw [finalize_phase] at h
  cases hp : p.result with
  | error msg =>
    rw [hp] at h
    simp at h
  | ok r0 =>
    rw [hp] at h
    simp only [Except.ok.injEq] at h
    refine ⟨p.session.is_new_session, p.session.session_id,
      (apply_soft_failure p.state p.monitor.config.claude_allowed_tools
        r0).session_id, ?_⟩
    rw [← h]

/-- C7: every response returned by `run_command` carries either the empty
string or a non-placeholder session id: whatever session id was passed in
and whatever id the engine returned, the finalised id never has the
`temp_` placeholder form. -/
theorem c7_no_placeholder_session_id (m : ToolMonitor)
    (store : List ClaudeSession) (user_id : Int) (wd : List String)
    (session_id : Option String) (force_new : Bool)
    (on_stream : Option CallbackFun) (engine : Nat → EngineBehavior)
    (freshIds : Nat → String) (now timeout : Int) (resp : ClaudeResponse)
    (h : (run_command m store user_id wd session_id force_new on_stream
        engine freshIds now timeout).result = .ok resp) :
    resp.session_id = "" ∨
      (resp.session_id ≠ "" ∧
        strStartsWith resp.session_id "temp_" = false) := by
  rw [run_command] at h
  obtain ⟨b, o, r, hr⟩ := finalize_phase_ok _ _ _ h
  rw [hr]
  exact finalize_session_id_spec b o r

/-- Witness for C7: a fresh-session run whose engine returns the real id
`real123`; the returned response carries that non-placeholder id. -/
theorem c7_no_placeholder_session_id_witness :
    ({ content := "done", session_id := "real123" } :
        ClaudeResponse).session_id = "" ∨
      (({ content := "done", session_id := "real123" } :
          ClaudeResponse).session_id ≠ "" ∧
        strStartsWith ({ content := "done", session_id := "real123" } :
          ClaudeResponse).session_id "temp_" = false) :=
  c7_no_placeholder_session_id plainMonitor [] 1 ["work"] none false none
    quietEngine tempIds 0 24 _ rfl

/-- C5: when execution of a continued real session fails with a
stale-conversation error, the facade removes the stale session from the
store, creates a fresh placeholder session, and re-executes exactly once
with `continue_session = false` and no session id; the trace has exactly
two engine calls whatever the second outcome is, and that second outcome
(success or failure) becomes the final result, so a second failure
propagates and there is no retry loop. -/
theorem c5_stale_retry_exactly_once
    (wd : List String) (user_id : Int) (on_stream : Option CallbackFun)
    (m : ToolMonitor) (st : StreamState) (store : List ClaudeSession)
    (session : ClaudeSession) (claude_sid : Option String)
    (engine : Nat → EngineBehavior) (freshId : String) (now : Int)
    (msg : String)
    (h0 : (engine 0).outcome = .error msg)
    (hstale : isStaleError msg = true)
    (hfresh : freshId ≠ session.session_id) :
    (execute_with_retry wd user_id on_stream m st store session true
        claude_sid engine freshId now).calls =
      [{ session_id := claude_sid, continue_session := true },
       { session_id := none, continue_session := false }] ∧
    (execute_with_retry wd user_id on_stream m st store session true
        claude_sid engine freshId now).result = (engine 1).outcome ∧
    (∀ s ∈ (execute_with_retry wd user_id on_stream m st store session true
        claude_sid engine freshId now).store,
      s.session_id ≠ session.session_id) ∧
    (execute_with_retry wd user_id on_stream m st store session true
        claude_sid engine freshId now).session =
      freshSession user_id wd freshId now := by
  have hred : execute_with_retry wd user_id on_stream m st store session true
      claude_sid engine freshId now =
      { result := (engine 1).outcome
        session := freshSession user_id wd freshId now
        store := remove_session store session.session_id ++
          [freshSession user_id wd freshId now]
        monitor := (sdkStream wd user_id on_stream
          (sdkStream wd user_id on_stream m st (engine 0).updates).1
          (sdkStream wd user_id on_stream m st (engine 0).updates).2
          (engine 1).updates).1
        state := (sdkStream wd user_id on_stream
          (sdkStream wd user_id on_stream m st (engine 0).updates).1
          (sdkStream wd user_id on_stream m st (engine 0).updates).2
          (engine 1).updates).2
        calls := [{ session_id := claude_sid, continue_session := true },
                  { session_id := none, continue_session := false }] } := by
    rw [execute_with_retry]
    simp only [exec_model, h0, hstale, Bool.and_self, if_true,
      get_or_create_session]
  rw [hred]
  refine ⟨rfl, rfl, ?_, rfl⟩
  intro s hs
  rcases List.mem_append.mp hs with hs | hs
  · rw [remove_session, List.mem_filter] at hs
    simpa [bne_iff_ne] using hs.2
  · rcases List.mem_singleton.mp hs with rfl
    simpa [freshSession] using hfresh

/-- Witness for C5: an engine that is stale on the first call and succeeds
on the second; the stale stored session is deleted and exactly two calls
are made, the second with `continue_session = false`. -/
theorem c5_stale_retry_exactly_once_witness :
    (execute_with_retry ["work"] 1 none plainMonitor {} [staleSession]
        staleSession true (some "real-old") staleOnceEngine "temp_1"
        1).calls =
      [{ session_id := some "real-old", continue_session := true },
       { session_id := none, continue_session := false }] ∧
    (execute_with_retry ["work"] 1 none plainMonitor {} [staleSession]
        staleSession true (some "real-old") staleOnceEngine "temp_1"
        1).result = (staleOnceEngine 1).outcome ∧
    (∀ s ∈ (execute_with_retry ["work"] 1 none plainMonitor {}
        [staleSession] staleSession true (some "real-old") staleOnceEngine
        "temp_1" 1).store,
      s.session_id ≠ staleSession.session_id) ∧
    (execute_with_retry ["work"] 1 none plainMonitor {} [staleSession]
        staleSession true (some "real-old") staleOnceEngine "temp_1"
        1).session = freshSession 1 ["work"] "temp_1" 1 :=
  c5_stale_retry_exactly_once ["work"] 1 none plainMonitor {} [staleSession]
    staleSession (some "real-old") staleOnceEngine "temp_1" 1
    "No conversation found with ID abc" rfl (by decide) (by decide)

lemma file_stage_not_file (m : ToolMonitor) (tool : String)
    (input : ToolInput) (wd : List String) (uid : Int)
    (h : fileTools.contains tool = false) :
    file_stage m tool input wd uid = none := by
  rw [file_stage, h]
  simp

lemma shell_stage_agentic (m : ToolMonitor) (tool : String)
    (input : ToolInput) (wd : List String) (uid : Int)
    (hag : m.agentic_mode = true) :
    shell_stage m tool input wd uid = finishOk m tool := by
  rw [shell_stage, hag]
  simp

lemma file_stage_cases (m : ToolMonitor) (tool : String)
    (input : ToolInput) (wd : List String) (uid : Int) :
    file_stage m tool input wd uid = none ∨
    (file_stage m tool input wd uid =
        some (m, false, some "File path required") ∧
      strTruthy (pyOrStr input.path input.file_path) = false) ∨
    (∃ v e, file_stage m tool input wd uid =
      some ({ m with security_violations := m.security_violations ++ [v] },
        false, e)) := by
  simp only [file_stage]
  split
  · split
    next hp =>
      right
      left
      exact ⟨rfl, by simpa using hp⟩
    next hp =>
      split
      next sv =>
        split
        next hv =>
          right
          right
          exact ⟨_, _, rfl⟩
        next hv => left; rfl
      next => left; rfl
  · left
    rfl

lemma shell_stage_cases (m : ToolMonitor) (tool : String)
    (input : ToolInput) (wd : List String) (uid : Int) :
    shell_stage m tool input wd uid = finishOk m tool ∨
    (∃ v e, shell_stage m tool input wd uid =
      ({ m with security_violations := m.security_violations ++ [v] },
        false, e)) := by
  simp only [shell_stage]
  split
  · split
    next p hd =>
      right
      exact ⟨_, _, rfl⟩
    next hd =>
      split
      next hb =>
        right
        exact ⟨_, _, rfl⟩
      next hb => left; rfl
  · left
    rfl

/-- C3 (amended): relaxed (agentic) mode bypasses the whole shell-command
validation stage, not only the blacklist: with the flag set, any shell
tool call passing the name checks is allowed whatever its command targets,
while with the flag unset the same tokenization-plus-boundary check blocks
a command whose resolved target escapes every approved root. -/
theorem c3_agentic_skips_all_shell_checks
    (m1 m2 : ToolMonitor) (tool : String) (input1 input2 : ToolInput)
    (wd : List String) (uid : Int)
    (htool : tool ∈ shellTools)
    (hag1 : m1.agentic_mode = true)
    (hn1 : (!m1.disable_tool_validation
        && !m1.config.claude_allowed_tools.isEmpty
        && !m1.config.claude_allowed_tools.contains tool) = false)
    (hn2 : (!m1.disable_tool_validation
        && !m1.config.claude_disallowed_tools.isEmpty
        && m1.config.claude_disallowed_tools.contains tool) = false)
    (hag2 : m2.agentic_mode = false)
    (hm1 : (!m2.disable_tool_validation
        && !m2.config.claude_allowed_tools.isEmpty
        && !m2.config.claude_allowed_tools.contains tool) = false)
    (hm2 : (!m2.disable_tool_validation
        && !m2.config.claude_disallowed_tools.isEmpty
        && m2.config.claude_disallowed_tools.contains tool) = false)
    (hdanger : firstDangerous (input2.command.getD "") = none)
    (hbound : (check_bash_directory_boundary (input2.command.getD "") wd
        m2.config.all_allowed_paths).1 = false) :
    (m1.validate_tool_call tool input1 wd uid).2 = (true, none) ∧
    (m2.validate_tool_call tool input2 wd uid).2 =
      (false, (check_bash_directory_boundary (input2.command.getD "") wd
        m2.config.all_allowed_paths).2) := by
  have hfile : fileTools.contains tool = false := by
    fin_cases htool <;> decide
  have hshell : shellTools.contains tool = true := by
    fin_cases htool <;> decide
  constructor
  · rw [ToolMonitor.validate_tool_call, if_neg (by rw [hn1]; simp),
      if_neg (by rw [hn2]; simp), file_stage_not_file _ _ _ _ _ hfile,
      shell_stage_agentic _ _ _ _ _ hag1]
    rfl
  · rw [ToolMonitor.validate_tool_call, if_neg (by rw [hm1]; simp),
      if_neg (by rw [hm2]; simp), file_stage_not_file _ _ _ _ _ hfile]
    simp only [shell_stage, hshell, hag2, Bool.not_false, Bool.and_self,
      if_true, hdanger, hbound]
    rfl

/-- C4 (amended): every Blocked outcome of `validate_tool_call` appends a
violation record before returning, except the missing-file-path rejection,
which returns `Blocked("File path required")` with the monitor state
unchanged. -/
theorem c4_blocked_appends_violation_except_missing_path (m : ToolMonitor) (tool : String) (input : ToolInput)
    (wd : List String) (uid : Int)
    (h : (m.validate_tool_call tool input wd uid).2.1 = false) :
    (∃ v, (m.validate_tool_call tool input wd uid).1.security_violations =
      m.security_violations ++ [v]) ∨
    ((m.validate_tool_call tool input wd uid).2.2 =
        some "File path required" ∧
      (m.validate_tool_call tool input wd uid).1 = m ∧
      strTruthy (pyOrStr input.path input.file_path) = false) := by
  rw [ToolMonitor.validate_tool_call] at h ⊢
  split at h
  next hc =>
    rw [if_pos hc]
    exact Or.inl ⟨_, rfl⟩
  next hc =>
    rw [if_neg hc]
    split at h
    next hc2 =>
      rw [if_pos hc2]
      exact Or.inl ⟨_, rfl⟩
    next hc2 =>
      rw [if_neg hc2]
      rcases file_stage_cases m tool input wd uid with hf | ⟨hf, hp⟩ |
        ⟨v, e, hf⟩
      · rw [hf] at h ⊢
        rcases shell_stage_cases m tool input wd uid with hs | ⟨v, e, hs⟩
        · rw [hs] at h
          exact absurd h (by simp [finishOk])
        · rw [hs]
          exact Or.inl ⟨v, rfl⟩
      · rw [hf]
        exact Or.inr ⟨rfl, rfl, hp⟩
      · rw [hf]
        exact Or.inl ⟨v, rfl⟩

/-- C8: on a command the POSIX lexer cannot tokenize, the directory
boundary check fails open, reporting the command safe; the
dangerous-pattern blacklist, which runs on the raw command string before
tokenization, still blocks that same command whenever a pattern occurs in
it. -/
theorem c8_unparsable_fails_open_blacklist_still_applies (cmd : String) (wd : List String) (roots : List String)
    (m : ToolMonitor) (tool : String) (input : ToolInput) (uid : Int)
    (hparse : shlexSplit cmd = none)
    (htool : tool ∈ shellTools)
    (hag : m.agentic_mode = false)
    (hn1 : (!m.disable_tool_validation
        && !m.config.claude_allowed_tools.isEmpty
        && !m.config.claude_allowed_tools.contains tool) = false)
    (hn2 : (!m.disable_tool_validation
        && !m.config.claude_disallowed_tools.isEmpty
        && m.config.claude_disallowed_tools.contains tool) = false)
    (hcmd : input.command = some cmd) :
    check_bash_directory_boundary cmd wd roots = (true, none) ∧
    ∀ p, firstDangerous cmd = some p →
      (m.validate_tool_call tool input wd uid).2 =
        (false, some ("Dangerous command pattern detected: " ++ p)) := by
  have hfile : fileTools.contains tool = false := by
    fin_cases htool <;> decide
  have hshell : shellTools.contains tool = true := by
    fin_cases htool <;> decide
  constructor
  · rw [check_bash_directory_boundary, hparse]
  · intro p hp
    rw [ToolMonitor.validate_tool_call, if_neg (by rw [hn1]; simp),
      if_neg (by rw [hn2]; simp), file_stage_not_file _ _ _ _ _ hfile]
    simp only [shell_stage, hshell, hag, Bool.not_false, Bool.and_self,
      if_true, hcmd, Option.getD_some, hp]
    rfl

/-- C9: with no path security validator configured, a file-oriented tool
call carrying any non-empty path — including one outside every approved
directory — passes the file-path stage and is allowed (given the name
checks pass), since no path resolution or containment check runs at
all. -/
theorem c9_no_validator_no_path_check (m : ToolMonitor) (tool : String) (input : ToolInput)
    (wd : List String) (uid : Int)
    (hsv : m.security_validator = none)
    (htool : tool ∈ fileTools)
    (hpath : strTruthy (pyOrStr input.path input.file_path) = true)
    (hn1 : (!m.disable_tool_validation
        && !m.config.claude_allowed_tools.isEmpty
        && !m.config.claude_allowed_tools.contains tool) = false)
    (hn2 : (!m.disable_tool_validation
        && !m.config.claude_disallowed_tools.isEmpty
        && m.config.claude_disallowed_tools.contains tool) = false) :
    (m.validate_tool_call tool input wd uid).2 = (true, none) := by
  have hfile : fileTools.contains tool = true := by
    fin_cases htool <;> decide
  have hshell : shellTools.contains tool = false := by
    fin_cases htool <;> decide
  rw [ToolMonitor.validate_tool_call, if_neg (by rw [hn1]; simp),
    if_neg (by rw [hn2]; simp)]
  have hfs : file_stage m tool input wd uid = none := by
    simp only [file_stage, hfile, hpath, hsv, Bool.not_true, if_true,
      Bool.false_eq_true, if_false]
  rw [hfs]
  simp only [shell_stage, hshell, Bool.false_and, Bool.false_eq_true,
    if_false]
  rfl

/-- Counterexample to C3 as stated: in relaxed mode, the filesystem-mutating
command `rm /etc/passwd`, whose target lies outside the approved root
`/work` (the boundary check, if consulted, reports a violation), is
nonetheless Allowed — the boundary containment check is not applied. -/
theorem c3_counterexample_agentic_boundary_skipped :
    (agenticMonitor.validate_tool_call "Bash"
      { command := some "rm /etc/passwd" } ["work"] 1).2 = (true, none) ∧
    (check_bash_directory_boundary "rm /etc/passwd" ["work"]
      agenticMonitor.config.all_allowed_paths).1 = false :=
  ⟨rfl, rfl⟩

/-- Witness for C3 (amended), with the same shell call sent to a relaxed
and to a strict monitor. -/
theorem c3_agentic_skips_all_shell_checks_witness :
    (agenticMonitor.validate_tool_call "Bash"
      { command := some "rm /etc/passwd" } ["work"] 1).2 = (true, none) ∧
    (plainMonitor.validate_tool_call "Bash"
      { command := some "rm /etc/passwd" } ["work"] 1).2 =
      (false, (check_bash_directory_boundary "rm /etc/passwd" ["work"]
        plainMonitor.config.all_allowed_paths).2) :=
  c3_agentic_skips_all_shell_checks agenticMonitor plainMonitor "Bash"
    { command := some "rm /etc/passwd" } { command := some "rm /etc/passwd" }
    ["work"] 1 (by decide) rfl (by decide) (by decide) rfl (by decide)
    (by decide) (by decide) (by decide)

/-- Counterexample to C4 as stated: a file-oriented call with no path field
returns a Blocked outcome while the violation list stays empty — no
`ViolationRecord` is appended for this Blocked return. -/
theorem c4_counterexample_missing_path_no_violation :
    (plainMonitor.validate_tool_call "Read" {} ["work"] 7).2 =
      (false, some "File path required") ∧
    (plainMonitor.validate_tool_call "Read"
      {} ["work"] 7).1.security_violations = [] ∧
    plainMonitor.security_violations = [] :=
  ⟨rfl, rfl, rfl⟩

/-- Witness for C4 (amended): an allow-list rejection appends exactly one
violation record. -/
theorem c4_blocked_appends_violation_except_missing_path_witness :
    (∃ v, (allowReadMonitor.validate_tool_call "Bash"
        { command := some "ls" } ["work"] 1).1.security_violations =
      allowReadMonitor.security_violations ++ [v]) ∨
    ((allowReadMonitor.validate_tool_call "Bash"
        { command := some "ls" } ["work"] 1).2.2 =
        some "File path required" ∧
      (allowReadMonitor.validate_tool_call "Bash"
        { command := some "ls" } ["work"] 1).1 = allowReadMonitor ∧
      strTruthy (pyOrStr ({ command := some "ls" } : ToolInput).path
        ({ command := some "ls" } : ToolInput).file_path) = false) :=
  c4_blocked_appends_violation_except_missing_path allowReadMonitor "Bash"
    { command := some "ls" } ["work"] 1 (by decide)

/-- Witness for C8: the command `rm -rf \x27oops` has an unterminated
quote, so the boundary check passes it, while the blacklist still blocks
it on its `rm -rf` substring. -/
theorem c8_unparsable_fails_open_blacklist_still_applies_witness :
    check_bash_directory_boundary "rm -rf \x27oops" ["work"] ["/work"] =
      (true, none) ∧
    (plainMonitor.validate_tool_call "Bash"
      { command := some "rm -rf \x27oops" } ["work"] 1).2 =
      (false, some ("Dangerous command pattern detected: " ++ "rm -rf")) :=
  ⟨(c8_unparsable_fails_open_blacklist_still_applies "rm -rf \x27oops"
      ["work"] ["/work"] plainMonitor "Bash"
      { command := some "rm -rf \x27oops" } 1 (by decide) (by decide) rfl
      (by decide) (by decide) rfl).1,
   (c8_unparsable_fails_open_blacklist_still_applies "rm -rf \x27oops"
      ["work"] ["/work"] plainMonitor "Bash"
      { command := some "rm -rf \x27oops" } 1 (by decide) (by decide) rfl
      (by decide) (by decide) rfl).2 "rm -rf" (by decide)⟩

/-- Witness for C9: with no validator, writing to `/etc/passwd` is allowed
even though that path is outside the approved root `/work`. -/
theorem c9_no_validator_no_path_check_witness :
    (plainMonitor.validate_tool_call "Write"
      { file_path := some "/etc/passwd" } ["work"] 1).2 = (true, none) ∧
    path_within (resolveAbs "/etc/passwd") (resolveAbs "/work") = false :=
  ⟨c9_no_validator_no_path_check plainMonitor "Write"
      { file_path := some "/etc/passwd" } ["work"] 1 rfl (by decide)
      (by decide) (by decide) (by decide),
   by decide⟩

lemma stream_handler_cb (wd : List String) (uid : Int)
    (cb : Option CallbackFun) (m : ToolMonitor) (st : StreamState)
    (u : StreamUpdate) :
    stream_handler wd uid cb m st u = handleToolCalls wd uid m st u.tool_calls := by
  simp only [stream_handler]
  cases hf : (handleToolCalls wd uid m st u.tool_calls).fault with
  | some e => simp [hf]
  | none =>
    cases cb with
    | none => simp [hf]
    | some f => cases hcb : f u <;> simp [hf, hcb]

lemma sdkStream_cb (wd : List String) (uid : Int)
    (cb1 cb2 : Option CallbackFun) :
    ∀ (us : List StreamUpdate) (m : ToolMonitor) (st : StreamState),
      sdkStream wd uid cb1 m st us = sdkStream wd uid cb2 m st us := by
  intro us
  induction us with
  | nil => intro m st; rfl
  | cons u us ih =>
    intro m st
    rw [sdkStream, sdkStream, stream_handler_cb wd uid cb1,
      stream_handler_cb wd uid cb2]
    exact ih _ _

lemma execute_with_retry_cb (wd : List String) (uid : Int)
    (cb1 cb2 : Option CallbackFun) (m : ToolMonitor) (st : StreamState)
    (store : List ClaudeSession) (session : ClaudeSession) (sc : Bool)
    (sid : Option String) (engine : Nat → EngineBehavior) (freshId : String)
    (now : Int) :
    execute_with_retry wd uid cb1 m st store session sc sid engine freshId
        now =
      execute_with_retry wd uid cb2 m st store session sc sid engine freshId
        now := by
  rw [execute_with_retry, execute_with_retry]
  simp only [exec_model, sdkStream_cb wd uid cb1 cb2]

/-- C10: the caller-supplied `on_stream` callback cannot influence the
turn: its invocation result is caught and discarded (facade.py lines
143-148), so for any two callbacks — including ones that always fail —
the streamed validation state and the entire `run_command` result are
identical, and no callback failure propagates or aborts execution. -/
theorem c10_callback_exception_isolated (wd : List String) (uid : Int)
    (cb1 cb2 : Option CallbackFun) (m : ToolMonitor) (st : StreamState)
    (updates : List StreamUpdate) (store : List ClaudeSession)
    (session_id : Option String) (force_new : Bool)
    (engine : Nat → EngineBehavior) (freshIds : Nat → String)
    (now timeout : Int) :
    sdkStream wd uid cb1 m st updates = sdkStream wd uid cb2 m st updates ∧
    run_command m store uid wd session_id force_new cb1 engine freshIds now
        timeout =
      run_command m store uid wd session_id force_new cb2 engine freshIds
        now timeout := by
  refine ⟨sdkStream_cb wd uid cb1 cb2 updates m st, ?_⟩
  rw [run_command, run_command]
  simp only [execute_with_retry_cb wd uid cb1 cb2]

/-- C1 (code bug): at a turn whose stream carries a `Bash` tool call that
validation blocks (a critical tool), the facade stream handler does raise
the typed `ClaudeToolValidationError` (the fault is present), but the SDK
dispatch layer catches every callback exception and only logs it
(sdk_integration.py lines 341-348 and 413-414), so `run_command` does not
abort: it returns a normal response flagged `is_error = true` with
`error_type = "tool_validation_failed"` instead of propagating the
fault. -/
theorem c1_critical_block_swallowed_not_raised :
    (allowReadMonitor.validate_tool_call "Bash"
      { command := some "ls" } ["work"] 1).2.1 = false ∧
    (handleToolCalls ["work"] 1 allowReadMonitor {}
      bashUpdate.tool_calls).fault.isSome = true ∧
    (run_command allowReadMonitor [] 1 ["work"] none false none
      blockedBashEngine tempIds 0 24).result =
      .ok { content := "Tool Access Blocked: Bash; currently allowed: Read",
            session_id := "real123", is_error := true,
            error_type := some "tool_validation_failed" } :=
  ⟨rfl, rfl, rfl⟩
